import Mathlib

/-!
Verification development for the cache persistence bridge of a sandboxed
plugin UI: the Channel Persistor (`src/src/ui/utils/figmaStoragePersistor.ts`),
the Cache Gate (`src/src/ui/ConvexProvider.svelte`) and the host-side Storage
Responder (`setupClientStorage`).

The embedding is a shallow one: the straight-line JS is translated into pure
Lean functions; the event-driven parts (the `message` listener and the
`setTimeout` callback inside `restoreClient`) become a step function on an
explicit correlation state, driven by a trace of UI events; host storage is a
function from keys to stored values.  Payloads are opaque to the bridge (it
never inspects the cached data), so the data payload universe is fixed to
`String` without loss: no branch of the translated code depends on the
payload's internal structure.
-/

/-- Opaque cached data payload. The bridge never inspects it. -/
abbrev Data := String

/-- A query identifier: an ordered sequence of key segments
(`queryKey` in the snapshot, e.g. `["todos"]`). -/
abbrev QueryKey := List String

/-- The `state` record of one persisted query entry.  Only its `data` field is
ever read by the Gate (`query.state.data`); `data` may be absent
(`Option.none` models JS `undefined`). -/
structure QueryState where
  data : Option Data
deriving DecidableEq

/-- One entry of a persisted snapshot: `{ queryKey, state }`.  Either field may
be missing, which is exactly what the Gate's `if (query.queryKey &&
query.state)` guard checks for.  (A present `queryKey` is an array and hence
truthy in JS, even when empty, so presence is the faithful reading of that
guard.) -/
structure PQuery where
  queryKey : Option QueryKey
  state : Option QueryState
deriving DecidableEq

/-- `clientState` of a persisted snapshot: `{ queries }`, where `queries` may
be absent (the Gate defaults it with `|| []`). -/
structure ClientState where
  queries : Option (List PQuery)
deriving DecidableEq

/-- A Cache Snapshot (`PersistedClient`): `{ clientState }`, where
`clientState` may be absent (the Gate checks `restoredState.clientState`
truthiness; a present `clientState` is an object, hence truthy). -/
structure PersistedClient where
  clientState : Option ClientState
deriving DecidableEq

/-- The fixed cache key, `const CACHE_KEY = 'tanstack_query_cache'`. -/
def CACHE_KEY : String := "tanstack_query_cache"

/-- The restore timeout in milliseconds, from `setTimeout(..., 500)`. -/
def RESTORE_TIMEOUT_MS : Nat := 500

/-- A `pluginMessage` payload as used by the bridge: `{ type, key, value }`.
Messages without a `value` field (`get-storage` requests) carry
`value = none`; `value = none` also models a JS `null` value, which the
receiving sides treat identically to an absent one (`msg.value || undefined`
on the UI side, storing `null` on the host side both read back as empty). -/
structure Msg where
  type : String
  key : String
  value : Option PersistedClient
deriving DecidableEq

/-- Events observable by one `restoreClient` call after its setup ran:
a `window` message event (whose `event.data.pluginMessage` may be absent,
modelled by the `Option`), or the firing of the 500 ms `setTimeout`
callback. -/
inductive UIEvent where
  | message (pluginMessage : Option Msg)
  | timerFire
deriving DecidableEq

/-- The ephemeral correlation state of one outstanding `restoreClient` call:
whether `handleMessage` is still registered on `window`, and whether (and with
what value) the promise has been resolved.  `resolved = some v` means the
promise settled with value `v`; the inner `Option` is the restored snapshot,
`none` being JS `undefined` (the empty result). -/
structure RestoreState where
  listenerActive : Bool
  resolved : Option (Option PersistedClient)
deriving DecidableEq

/-- State right after `restoreClient`'s executor ran: `handleMessage`
registered, promise pending. -/
def restoreInit : RestoreState := ⟨true, none⟩

/-- Whether an event is a reply that `handleMessage` correlates with:
a message event carrying a `pluginMessage` with `type === 'storage-data'` and
`key === CACHE_KEY`. -/
def matchingReply : UIEvent → Bool
  | UIEvent.message (some msg) => msg.type == "storage-data" && msg.key == CACHE_KEY
  | UIEvent.message none => false
  | UIEvent.timerFire => false

/-- One event processed by the machinery `restoreClient` set up.

A message event runs `handleMessage` only while the listener is registered;
`handleMessage` acts only on a matching reply, and then removes the listener
and resolves with `msg.value || undefined` (the snapshot value is an object
and hence truthy, so this is `msg.value` in the model, with `null`/absent
collapsing to the empty result `none`).  The timer callback removes the
listener and resolves with `undefined`.  `Option.orElse` models promise
resolution: the first resolution wins, later ones are no-ops. -/
def restoreStep (s : RestoreState) (e : UIEvent) : RestoreState :=
  match e with
  | UIEvent.message none => s
  | UIEvent.message (some msg) =>
      if s.listenerActive && msg.type == "storage-data" && msg.key == CACHE_KEY then
        ⟨false, s.resolved.orElse fun _ => some msg.value⟩
      else s
  | UIEvent.timerFire => ⟨false, s.resolved.orElse fun _ => some none⟩

/-- The correlation state after `restoreClient`'s setup ran and then the given
trace of events was delivered. -/
def restoreRun (events : List UIEvent) : RestoreState :=
  events.foldl restoreStep restoreInit

/-- Outcome of a JS async call as seen by an awaiting caller: the returned
promise either fulfilled with a value or rejected with an exception. -/
inductive JSOutcome (α : Type) where
  | fulfilled (v : α)
  | rejected
deriving DecidableEq

/-- Shallow embedding of `restoreClient` as a whole, including its fault
behaviour.  `sendThrows` says whether `parent.postMessage` throws
synchronously inside the promise executor.

The source wraps `return new Promise(executor)` in `try/catch` and returns the
promise without `await`.  Under JS semantics a synchronous throw inside the
executor is caught by the `Promise` constructor and becomes a rejection of the
returned promise; the `try` block itself exits normally (the rejected promise
is a perfectly ordinary return value), so the surrounding `catch` never runs
and the rejection propagates to the awaiting caller.  Note that the throw
happens after `addEventListener` but before `setTimeout`, so in that case no
timer is ever registered and a later call of the leaked listener can only
attempt a second settlement, which is a no-op on an already-rejected promise.
When the send succeeds, the promise settles according to the
listener/timeout race (`restoreRun`).  Result `none` means the promise is
still pending after the given events. -/
def restoreClientOutcome (sendThrows : Bool) (events : List UIEvent) :
    Option (JSOutcome (Option PersistedClient)) :=
  if sendThrows then some JSOutcome.rejected
  else ((restoreRun events).resolved).map JSOutcome.fulfilled

/-- Shallow embedding of `persistClient`.  The `try` block sends one
`set-storage` message tagged with `CACHE_KEY` and the snapshot as value; a
synchronous throw of `parent.postMessage` is raised directly in the async
function body, so it is caught, logged and swallowed, and no message is sent.
Returns the caller-visible outcome together with the list of messages sent. -/
def persistClient (sendThrows : Bool) (client : PersistedClient) :
    JSOutcome Unit × List Msg :=
  if sendThrows then (JSOutcome.fulfilled (), [])
  else (JSOutcome.fulfilled (), [⟨"set-storage", CACHE_KEY, some client⟩])

/-- Shallow embedding of `removeClient`: one `set-storage` message with
`CACHE_KEY` and a `null` value, with the same try/catch shape as
`persistClient`. -/
def removeClient (sendThrows : Bool) : JSOutcome Unit × List Msg :=
  if sendThrows then (JSOutcome.fulfilled (), [])
  else (JSOutcome.fulfilled (), [⟨"set-storage", CACHE_KEY, none⟩])

/-- The `get-storage` request `restoreClient` sends before it starts
listening. -/
def getStorageRequest : Msg := ⟨"get-storage", CACHE_KEY, none⟩

/-- Host-side persistent storage: each key maps to `none` when the slot was
never written, or to `some v` where `v` is the stored value (itself an
`Option`, since a `set-storage` with a `null` value stores `null`). -/
abbrev StorageMap := String → Option (Option PersistedClient)

/-- Shallow embedding of the message handler installed by
`setupClientStorage` on the host side.  `getThrows`/`setThrows` say whether
`figma.clientStorage.getAsync`/`setAsync` throw for this message.

On `get-storage` it reads the slot (`getAsync` yields `undefined` for a
never-written key, modelled by `Option.getD none`) and posts exactly one
`storage-data` reply carrying the same key and that value; if the read throws
it posts the reply with value `null` instead.  On `set-storage` it writes the
message's value into the slot (a throwing write leaves storage unchanged and
is only logged) and posts nothing.  Any other message is not handled.
Returns the storage after the message, the posted replies, and the handled
flag the handler returns. -/
def setupClientStorageHandler (getThrows setThrows : Bool)
    (storage : StorageMap) (msg : Msg) : StorageMap × List Msg × Bool :=
  if msg.type == "get-storage" then
    if getThrows then (storage, [⟨"storage-data", msg.key, none⟩], true)
    else (storage, [⟨"storage-data", msg.key, (storage msg.key).getD none⟩], true)
  else if msg.type == "set-storage" then
    if setThrows then (storage, [], true)
    else ((fun k => if k = msg.key then some msg.value else storage k), [], true)
  else (storage, [], false)

/-- The live query-cache instance, reduced to what the Gate touches: a map
from query identifiers to their data, as an association list without duplicate
keys. -/
abbrev QueryCache := List (QueryKey × Data)

/-- `queryClient.setQueryData(queryKey, data)` of the external query-cache
library, at the boundary the Gate uses: setting a key's data to `undefined`
is documented by the library as a no-op (the cache entry is not updated);
otherwise the entry for that identifier is created or overwritten. -/
def setQueryData (cache : QueryCache) (key : QueryKey) (d : Option Data) : QueryCache :=
  match d with
  | none => cache
  | some v => (key, v) :: cache.filter fun kv => !(kv.1 == key)

/-- Look up the cached data for an identifier in the live query-cache. -/
def getQueryData (cache : QueryCache) (key : QueryKey) : Option Data :=
  List.lookup key cache

/-- The Gate's hydration loop body over a list of snapshot entries:
`queries.forEach(query => { if (query.queryKey && query.state)
queryClient.setQueryData(query.queryKey, query.state.data); })`. -/
def hydrateQueries (cache : QueryCache) (queries : List PQuery) : QueryCache :=
  queries.foldl
    (fun c q =>
      match q.queryKey, q.state with
      | some k, some st => setQueryData c k st.data
      | _, _ => c)
    cache

/-- The Gate's full hydration step on the restore outcome:
`if (restoredState && restoredState.clientState) { const queries =
restoredState.clientState.queries || []; queries.forEach(...); }`. -/
def hydrate (cache : QueryCache) (restoredState : Option PersistedClient) : QueryCache :=
  match restoredState with
  | none => cache
  | some rc =>
      match rc.clientState with
      | none => cache
      | some cs => hydrateQueries cache (cs.queries.getD [])

/-- Observable state of the Cache Gate (`ConvexProvider.svelte`): the `ready`
flag, the live query-cache contents, and whether `persistQueryClient` has been
registered for ongoing persistence. -/
structure GateState where
  ready : Bool
  cache : QueryCache
  persistRegistered : Bool
deriving DecidableEq

/-- The wrapped application subtree is mounted exactly when `ready` is true:
the component template is `{#if ready} <QueryClientProvider><App/>... {/if}`. -/
def appMounted (s : GateState) : Bool := s.ready

/-- The sequence of observable Gate states along the `onMount` body, given the
value the awaited `restoreClient()` promise fulfilled with.  The four states
are, in source order: (0) from UI start until the `await` returns — `ready`
initialised to `false`, cache fresh and empty; (1) after the hydration loop
ran (or was skipped); (2) after `persistQueryClient({...})` registered the
persistor; (3) after `ready = true`. -/
def onMountTrace (restoredState : Option PersistedClient) : List GateState :=
  [⟨false, [], false⟩,
   ⟨false, hydrate [] restoredState, false⟩,
   ⟨false, hydrate [] restoredState, true⟩,
   ⟨true, hydrate [] restoredState, true⟩]

/-- The Gate states for a general restore outcome: when the awaited promise
rejects, the `await` rethrows, the rest of the `onMount` body is skipped, and
the Gate never leaves its initial state (`ready` is never set). -/
def onMountStates (outcome : JSOutcome (Option PersistedClient)) : List GateState :=
  match outcome with
  | JSOutcome.fulfilled o => onMountTrace o
  | JSOutcome.rejected => [⟨false, [], false⟩]

/-- The round trip of §8 P1: `persist(S)` against a correctly behaving
Storage Responder starting from empty storage, then a fresh `restore()` whose
`get-storage` request is answered by the same Responder, the reply being
delivered to the fresh call's listener.  Result: what the fresh `restore()`
resolved with (`none` would mean it never settled). -/
def roundTripResult (client : PersistedClient) : Option (Option PersistedClient) :=
  let storage0 : StorageMap := fun _ => none
  let sent := (persistClient false client).2
  let storage1 := sent.foldl (fun st m => (setupClientStorageHandler false false st m).1) storage0
  let replies := (setupClientStorageHandler false false storage1 getStorageRequest).2.1
  (replies.foldl (fun s r => restoreStep s (UIEvent.message (some r))) restoreInit).resolved

/-- The per-entry view of a snapshot the round-trip property compares:
each entry's identifier together with its recorded `data` field. -/
def entriesData (c : PersistedClient) : List (Option QueryKey × Option Data) :=
  match c.clientState with
  | none => []
  | some cs => (cs.queries.getD []).map fun q => (q.queryKey, q.state.bind fun st => st.data)

/-- A concrete well-formed snapshot entry, used by witnesses:
identifier `["todos"]`, data present. -/
def sampleQuery : PQuery := ⟨some ["todos"], some ⟨some "todos-data"⟩⟩

/-- A concrete non-empty snapshot with the single entry `sampleQuery`. -/
def sampleClient : PersistedClient := ⟨some ⟨some [sampleQuery]⟩⟩

/-- A non-matching message event leaves the correlation state untouched:
`handleMessage` returns without acting (or `pluginMessage` is absent). -/
lemma restoreStep_nonmatching (s : RestoreState) (e : UIEvent)
    (ht : e ≠ UIEvent.timerFire) (hm : matchingReply e = false) :
    restoreStep s e = s := by
  cases e with
  | timerFire => exact absurd rfl ht
  | message pm =>
      cases pm with
      | none => rfl
      | some msg =>
          simp only [matchingReply] at hm
          have hg : (s.listenerActive && msg.type == "storage-data" &&
              msg.key == CACHE_KEY) = false := by
            rw [Bool.and_assoc, hm, Bool.and_false]
          simp [restoreStep, hg]

/-- Once the listener is deregistered and the promise settled, no further
event changes the correlation state. -/
lemma restoreStep_settled (s : RestoreState) (e : UIEvent)
    (h1 : s.listenerActive = false) (h2 : s.resolved.isSome = true) :
    restoreStep s e = s := by
  obtain ⟨v, hv⟩ := Option.isSome_iff_exists.mp h2
  cases e with
  | message pm =>
      cases pm with
      | none => rfl
      | some msg => simp [restoreStep, h1]
  | timerFire =>
      cases s with
      | mk la r =>
          simp only at h1 hv
          subst h1 hv
          rfl

/-- Invariant preservation: if a settled state implies the listener is gone,
this keeps holding after any event (both settling branches deregister the
listener first). -/
lemma restoreStep_inv (s : RestoreState) (e : UIEvent)
    (h : s.resolved.isSome = true → s.listenerActive = false) :
    (restoreStep s e).resolved.isSome = true →
      (restoreStep s e).listenerActive = false := by
  cases e with
  | message pm =>
      cases pm with
      | none => exact h
      | some msg =>
          by_cases hc :
              (s.listenerActive && msg.type == "storage-data" && msg.key == CACHE_KEY) = true
          · simp [restoreStep, hc]
          · simp only [restoreStep, if_neg hc]
            exact h
  | timerFire => simp [restoreStep]

/-- The settled-implies-deregistered invariant holds along any run. -/
lemma foldl_restore_inv (es : List UIEvent) (s : RestoreState)
    (h : s.resolved.isSome = true → s.listenerActive = false) :
    (es.foldl restoreStep s).resolved.isSome = true →
      (es.foldl restoreStep s).listenerActive = false := by
  induction es generalizing s with
  | nil => exact h
  | cons e es ih => exact ih (restoreStep s e) (restoreStep_inv s e h)

/-- A run starting from a deregistered, settled state is a no-op. -/
lemma foldl_restore_settled (es : List UIEvent) (s : RestoreState)
    (h1 : s.listenerActive = false) (h2 : s.resolved.isSome = true) :
    es.foldl restoreStep s = s := by
  induction es with
  | nil => rfl
  | cons e es ih => rw [List.foldl_cons, restoreStep_settled s e h1 h2, ih]

/-- A settled promise stays settled across any event. -/
lemma restoreStep_resolved_mono (s : RestoreState) (e : UIEvent)
    (h : s.resolved.isSome = true) : (restoreStep s e).resolved.isSome = true := by
  obtain ⟨v, hv⟩ := Option.isSome_iff_exists.mp h
  cases e with
  | message pm =>
      cases pm with
      | none => exact h
      | some msg =>
          by_cases hc :
              (s.listenerActive && msg.type == "storage-data" && msg.key == CACHE_KEY) = true
          · simp [restoreStep, hc, hv, Option.orElse]
          · simp only [restoreStep, if_neg hc]
            exact h
  | timerFire => simp [restoreStep, hv, Option.orElse]

/-- A settled promise stays settled along any run. -/
lemma foldl_resolved_mono (es : List UIEvent) (s : RestoreState)
    (h : s.resolved.isSome = true) : (es.foldl restoreStep s).resolved.isSome = true := by
  induction es generalizing s with
  | nil => exact h
  | cons e es ih => exact ih (restoreStep s e) (restoreStep_resolved_mono s e h)

/-- The timer callback always settles the promise (with the empty result if it
was not already settled). -/
lemma restoreStep_timer_settles (s : RestoreState) :
    (restoreStep s UIEvent.timerFire).resolved.isSome = true := by
  cases hr : s.resolved <;> simp [restoreStep, hr, Option.orElse]

/-- If the timer fires somewhere in the trace, the run ends settled. -/
lemma foldl_timer_settles (es : List UIEvent) (s : RestoreState)
    (h : UIEvent.timerFire ∈ es) :
    (es.foldl restoreStep s).resolved.isSome = true := by
  induction es generalizing s with
  | nil => cases h
  | cons e es ih =>
      rcases List.mem_cons.mp h with he | he
      · subst he
        exact foldl_resolved_mono es (restoreStep s UIEvent.timerFire)
          (restoreStep_timer_settles s)
      · exact ih (restoreStep s e) he

/-- Along a trace with no matching reply, the promise value can only be
pending or the empty result. -/
lemma foldl_nonmatching_empty (es : List UIEvent)
    (hm : ∀ e ∈ es, matchingReply e = false) (s : RestoreState)
    (hs : s.resolved = none ∨ s.resolved = some none) :
    (es.foldl restoreStep s).resolved = none ∨
      (es.foldl restoreStep s).resolved = some none := by
  induction es generalizing s with
  | nil => exact hs
  | cons e es ih =>
      refine ih (fun x hx => hm x (List.mem_cons_of_mem e hx)) (restoreStep s e) ?_
      have hme : matchingReply e = false := hm e (List.mem_cons_self e es)
      cases e with
      | message pm =>
          cases pm with
          | none => exact hs
          | some msg =>
              simp only [matchingReply] at hme
              have hg : (s.listenerActive && msg.type == "storage-data" &&
                  msg.key == CACHE_KEY) = false := by
                rw [Bool.and_assoc, hme, Bool.and_false]
              simpa [restoreStep, hg] using hs
      | timerFire =>
          rcases hs with hr | hr <;> simp [restoreStep, hr, Option.orElse]

/-- C2 (code defect): when the channel send throws synchronously inside
`restoreClient`, the call rejects instead of resolving with a benign empty
result — the throw happens inside the promise executor, so the `Promise`
constructor converts it into a rejection of the returned promise and the
surrounding `catch` (which would log and return `undefined`) never runs; the
rejection is not healed by a later reply either, and the awaiting Gate then
never sets `ready`, so the application is never mounted. -/
theorem restoreClient_rejects_when_send_throws :
    restoreClientOutcome true [] = some JSOutcome.rejected ∧
    restoreClientOutcome true
        [UIEvent.message (some ⟨"storage-data", CACHE_KEY, some sampleClient⟩)] =
      some JSOutcome.rejected ∧
    (onMountStates JSOutcome.rejected).map (fun s => s.ready) = [false] :=
  ⟨rfl, rfl, rfl⟩

/-- C4: from the pending state, a message event resolves `restore()` exactly
when its `pluginMessage` has type `storage-data` and the fixed cache key, and
it resolves with that message's value (`none`, the empty result, when the
value is null/absent); a trace consisting only of messages of a different
type or key never resolves the call and leaves the listener in place. -/
theorem restore_resolution_characterization :
    (∀ msg : Msg,
        (restoreStep restoreInit (UIEvent.message (some msg))).resolved =
          if msg.type == "storage-data" && msg.key == CACHE_KEY then some msg.value
          else none) ∧
    (restoreStep restoreInit
        (UIEvent.message (some ⟨"storage-data", CACHE_KEY, none⟩))).resolved = some none ∧
    (∀ es : List UIEvent,
        (∀ e ∈ es, e ≠ UIEvent.timerFire ∧ matchingReply e = false) →
        restoreRun es = restoreInit) := by
  refine ⟨?_, by decide, ?_⟩
  · intro msg
    by_cases h1 : msg.type = "storage-data"
    · by_cases h2 : msg.key = CACHE_KEY
      · simp [restoreStep, restoreInit, h1, h2, Option.orElse]
      · simp [restoreStep, restoreInit, h1, h2]
    · simp [restoreStep, restoreInit, h1]
  · intro es h
    unfold restoreRun
    induction es with
    | nil => rfl
    | cons e es ih =>
        rw [List.foldl_cons,
          restoreStep_nonmatching restoreInit e (h e (List.mem_cons_self e es)).1
            (h e (List.mem_cons_self e es)).2]
        exact ih fun x hx => h x (List.mem_cons_of_mem e hx)

/-- Witness for `restore_resolution_characterization`: a message with the
wrong type does not resolve the call. -/
theorem restore_resolution_characterization_witness :
    ((∀ e ∈ [UIEvent.message (some ⟨"get-storage", CACHE_KEY, none⟩)],
        e ≠ UIEvent.timerFire ∧ matchingReply e = false) ∧
      restoreRun [UIEvent.message (some ⟨"get-storage", CACHE_KEY, none⟩)] = restoreInit) :=
  ⟨by decide,
    restore_resolution_characterization.2.2
      [UIEvent.message (some ⟨"get-storage", CACHE_KEY, none⟩)] (by decide)⟩

/-- C5: the restore timeout is the fixed 500 ms; once the timer callback has
fired the call is settled (it never hangs); if additionally no matching reply
was ever delivered, the settled value is the empty result (`undefined`), not
an error; and with the send succeeding the call never rejects. -/
theorem restore_timeout_resolves_empty :
    RESTORE_TIMEOUT_MS = 500 ∧
    (∀ es : List UIEvent, UIEvent.timerFire ∈ es →
        (restoreRun es).resolved.isSome = true) ∧
    (∀ es : List UIEvent, (∀ e ∈ es, matchingReply e = false) →
        UIEvent.timerFire ∈ es → (restoreRun es).resolved = some none) ∧
    (∀ es : List UIEvent, restoreClientOutcome false es ≠ some JSOutcome.rejected) := by
  refine ⟨rfl, ?_, ?_, ?_⟩
  · intro es h
    exact foldl_timer_settles es restoreInit h
  · intro es hm ht
    have h1 : (restoreRun es).resolved.isSome = true := foldl_timer_settles es restoreInit ht
    have h2 := foldl_nonmatching_empty es hm restoreInit (Or.inl rfl)
    rcases h2 with h2 | h2
    · have h1' : (es.foldl restoreStep restoreInit).resolved.isSome = true := h1
      rw [h2] at h1'
      cases h1'
    · exact h2
  · intro es h
    simp only [restoreClientOutcome] at h
    cases hr : (restoreRun es).resolved with
    | none => rw [hr] at h; simp at h
    | some v => rw [hr] at h; simp at h

/-- Witness for `restore_timeout_resolves_empty`: a trace in which only the
timer fires yields the empty result. -/
theorem restore_timeout_resolves_empty_witness :
    ((∀ e ∈ [UIEvent.timerFire], matchingReply e = false) ∧
      UIEvent.timerFire ∈ [UIEvent.timerFire]) ∧
    (restoreRun [UIEvent.timerFire]).resolved = some none :=
  ⟨⟨by decide, by decide⟩,
    restore_timeout_resolves_empty.2.2.1 [UIEvent.timerFire] (by decide) (by decide)⟩

/-- C6: once a `restore()` call has settled by either path, its listener is
deregistered and any further events — late matching replies included — leave
its state exactly as it was: no double resolution, no observable effect. -/
theorem restore_settled_no_further_effect (es es' : List UIEvent)
    (h : (restoreRun es).resolved.isSome = true) :
    (restoreRun es).listenerActive = false ∧ restoreRun (es ++ es') = restoreRun es := by
  have hLis : (restoreRun es).listenerActive = false :=
    foldl_restore_inv es restoreInit (by intro hx; cases hx) h
  refine ⟨hLis, ?_⟩
  unfold restoreRun at *
  rw [List.foldl_append]
  exact foldl_restore_settled es' _ hLis h

/-- Witness for `restore_settled_no_further_effect`: after settling via the
timeout, a late matching reply carrying a snapshot has no effect. -/
theorem restore_settled_no_further_effect_witness :
    (restoreRun [UIEvent.timerFire]).resolved.isSome = true ∧
    ((restoreRun [UIEvent.timerFire]).listenerActive = false ∧
      restoreRun ([UIEvent.timerFire] ++
          [UIEvent.message (some ⟨"storage-data", CACHE_KEY, some sampleClient⟩)]) =
        restoreRun [UIEvent.timerFire]) :=
  ⟨rfl,
    restore_settled_no_further_effect [UIEvent.timerFire]
      [UIEvent.message (some ⟨"storage-data", CACHE_KEY, some sampleClient⟩)] rfl⟩

/-- C1: along `onMount`, for any restore outcome (immediate reply, delayed
reply, or timeout — i.e. whatever value the settled `restoreClient()` promise
fulfilled with), the application is mounted in none of the states preceding
the final one: the readiness flag is `false` from UI start, every state in
which the application is mounted already carries the fully hydrated cache and
the registered persistor, and the flag goes from `false` to `true` exactly
once, at the last step, never reverting. -/
theorem gate_restore_before_mount (es : List UIEvent) (o : Option PersistedClient)
    (h : (restoreRun es).resolved = some o) :
    (onMountTrace o).map appMounted = [false, false, false, true] ∧
    (onMountTrace o).head? = some ⟨false, [], false⟩ ∧
    (∀ s ∈ onMountTrace o, appMounted s = true →
        s.cache = hydrate [] o ∧ s.persistRegistered = true) := by
  refine ⟨rfl, rfl, ?_⟩
  intro s hs hm
  simp only [onMountTrace, List.mem_cons, List.mem_singleton] at hs
  rcases hs with rfl | rfl | rfl | rfl | hs
  · cases hm
  · cases hm
  · cases hm
  · exact ⟨rfl, rfl⟩
  · cases hs

/-- Witness for `gate_restore_before_mount`: the host never replies, restore
settles empty via the timeout, and the mount pattern along the trace is
`[false, false, false, true]`. -/
theorem gate_restore_before_mount_witness :
    (restoreRun [UIEvent.timerFire]).resolved = some none ∧
    (onMountTrace none).map appMounted = [false, false, false, true] :=
  ⟨rfl, (gate_restore_before_mount [UIEvent.timerFire] none rfl).1⟩

/-- C3: for any non-empty snapshot, persisting it against a correctly
behaving Storage Responder over empty storage and then running a fresh
`restore()` resolves with that very snapshot, so in particular every entry's
`data` field of the result equals the corresponding entry's `data` field of
the original. -/
theorem persist_restore_roundtrip (client : PersistedClient)
    (hne : ∃ cs, client.clientState = some cs ∧ cs.queries.getD [] ≠ []) :
    roundTripResult client = some (some client) ∧
    (∀ c, roundTripResult client = some (some c) → entriesData c = entriesData client) := by
  refine ⟨rfl, ?_⟩
  intro c hc
  have h0 : roundTripResult client = some (some client) := rfl
  rw [h0] at hc
  simp only [Option.some.injEq] at hc
  rw [hc]

/-- Witness for `persist_restore_roundtrip` at the concrete one-entry
snapshot `sampleClient`. -/
theorem persist_restore_roundtrip_witness :
    (∃ cs, sampleClient.clientState = some cs ∧ cs.queries.getD [] ≠ []) ∧
    roundTripResult sampleClient = some (some sampleClient) :=
  ⟨⟨⟨some [sampleQuery]⟩, rfl, by decide⟩,
    (persist_restore_roundtrip sampleClient ⟨⟨some [sampleQuery]⟩, rfl, by decide⟩).1⟩

/-- C7: during hydration, an entry with a present identifier, a present state
record and a present `data` field has its data injected into the live cache
under that same identifier, and the loop then continues with the remaining
entries from the updated cache; an entry missing its identifier, its state or
its data leaves the cache untouched for that entry while the remaining
entries are still processed; and for every restore outcome the Gate's trace
still ends in the ready (Live) state. -/
theorem hydration_skips_malformed_entries :
    (∀ (cache : QueryCache) (q : PQuery) (rest : List PQuery) (k : QueryKey)
        (st : QueryState) (d : Data),
        q.queryKey = some k → q.state = some st → st.data = some d →
        hydrateQueries cache (q :: rest) =
          hydrateQueries (setQueryData cache k (some d)) rest ∧
        getQueryData (setQueryData cache k (some d)) k = some d) ∧
    (∀ (cache : QueryCache) (q : PQuery) (rest : List PQuery),
        q.queryKey = none ∨ q.state = none ∨ (q.state.bind fun st => st.data) = none →
        hydrateQueries cache (q :: rest) = hydrateQueries cache rest) ∧
    (∀ o : Option PersistedClient,
        (onMountTrace o).getLast? = some ⟨true, hydrate [] o, true⟩) := by
  refine ⟨?_, ?_, fun o => rfl⟩
  · intro cache q rest k st d hk hst hd
    constructor
    · simp [hydrateQueries, hk, hst, hd]
    · simp [getQueryData, setQueryData, List.lookup]
  · intro cache q rest hmal
    rcases hmal with hk | hst | hd
    · simp [hydrateQueries, hk]
    · cases hq : q.queryKey <;> simp [hydrateQueries, hq, hst]
    · cases hq : q.queryKey with
      | none => simp [hydrateQueries, hq]
      | some k =>
          cases hst : q.state with
          | none => simp [hydrateQueries, hq, hst]
          | some st =>
              rw [hst] at hd
              simp only [Option.some_bind] at hd
              simp [hydrateQueries, hq, hst, setQueryData, hd]

/-- Witness for `hydration_skips_malformed_entries`: a valid entry lands in
the cache under its own identifier, a fully missing entry is skipped, and the
Gate trace for the sample snapshot ends ready. -/
theorem hydration_skips_malformed_entries_witness :
    (getQueryData (setQueryData [] ["todos"] (some "todos-data")) ["todos"] =
      some "todos-data") ∧
    hydrateQueries [] [(⟨none, none⟩ : PQuery)] = hydrateQueries [] [] ∧
    (onMountTrace (some sampleClient)).getLast? =
      some ⟨true, hydrate [] (some sampleClient), true⟩ :=
  ⟨(hydration_skips_malformed_entries.1 [] sampleQuery [] ["todos"]
      ⟨some "todos-data"⟩ "todos-data" rfl rfl rfl).2,
    hydration_skips_malformed_entries.2.1 [] ⟨none, none⟩ [] (Or.inl rfl),
    hydration_skips_malformed_entries.2.2 (some sampleClient)⟩

/-- C8: `persistClient` sends exactly one `set-storage` message carrying the
fixed cache key and the snapshot; `removeClient` sends exactly one
`set-storage` message carrying the fixed cache key and a null value; and both
always fulfil from the caller's perspective, whether or not the channel send
throws synchronously (a throw is caught and only logged, with no message
sent). -/
theorem persist_remove_fire_and_forget (client : PersistedClient) :
    (persistClient false client).2 = [⟨"set-storage", CACHE_KEY, some client⟩] ∧
    (persistClient true client).2 = [] ∧
    (removeClient false).2 = [⟨"set-storage", CACHE_KEY, none⟩] ∧
    (removeClient true).2 = [] ∧
    (∀ sendThrows : Bool,
        (persistClient sendThrows client).1 = JSOutcome.fulfilled () ∧
        (removeClient sendThrows).1 = JSOutcome.fulfilled ()) :=
  ⟨rfl, rfl, rfl, rfl, fun sendThrows => by cases sendThrows <;> exact ⟨rfl, rfl⟩⟩

/-- C9: the Storage Responder answers a `get-storage` message by reading the
slot under the message's key and posting exactly one `storage-data` reply
carrying that same key and the slot's current value; it answers a
`set-storage` message by writing the message's value (possibly null) into the
slot under the message's key, posting nothing; and every reply it ever posts,
under any fault behaviour, is a `storage-data` message carrying the same key
as the message it answers. -/
theorem storage_responder_contract :
    (∀ (storage : StorageMap) (key : String),
        setupClientStorageHandler false false storage ⟨"get-storage", key, none⟩ =
          (storage, [⟨"storage-data", key, (storage key).getD none⟩], true)) ∧
    (∀ (storage : StorageMap) (key : String) (v : Option PersistedClient),
        setupClientStorageHandler false false storage ⟨"set-storage", key, v⟩ =
          ((fun k => if k = key then some v else storage k), [], true)) ∧
    (∀ (getThrows setThrows : Bool) (storage : StorageMap) (msg : Msg),
        ∀ r ∈ (setupClientStorageHandler getThrows setThrows storage msg).2.1,
          r.type = "storage-data" ∧ r.key = msg.key) := by
  refine ⟨fun storage key => rfl, fun storage key v => rfl, ?_⟩
  intro getThrows setThrows storage msg r hr
  by_cases h1 : msg.type = "get-storage"
  · cases getThrows <;>
      · simp only [setupClientStorageHandler, h1] at hr
        simp only [beq_self_eq_true, if_true] at hr
        simp at hr
        rw [hr]
        exact ⟨rfl, rfl⟩
  · by_cases h2 : msg.type = "set-storage"
    · cases setThrows <;>
        · simp [setupClientStorageHandler, h1, h2] at hr
    · simp [setupClientStorageHandler, h1, h2] at hr

/-- Witness for `storage_responder_contract`: the reply to a `get-storage`
for the fixed cache key over empty storage is one `storage-data` message for
that same key. -/
theorem storage_responder_contract_witness :
    (⟨"storage-data", CACHE_KEY, none⟩ : Msg) ∈
      (setupClientStorageHandler false false (fun _ => none) getStorageRequest).2.1 ∧
    (⟨"storage-data", CACHE_KEY, (none : Option PersistedClient)⟩ : Msg).type =
        "storage-data" ∧
      (⟨"storage-data", CACHE_KEY, (none : Option PersistedClient)⟩ : Msg).key =
        getStorageRequest.key :=
  ⟨by decide,
    storage_responder_contract.2.2 false false (fun _ => none) getStorageRequest
      ⟨"storage-data", CACHE_KEY, none⟩ (by decide)⟩

/-- C10: when the host-side storage read throws, the Responder still posts
exactly one `storage-data` reply carrying the same key and a null value, and
storage is left untouched — and on the UI side such a reply resolves a fresh
`restore()` with the empty result via the reply path, exactly as an empty
slot would. -/
theorem storage_read_failure_replies_null :
    (∀ (storage : StorageMap) (key : String),
        setupClientStorageHandler true false storage ⟨"get-storage", key, none⟩ =
          (storage, [⟨"storage-data", key, none⟩], true)) ∧
    (restoreRun [UIEvent.message (some ⟨"storage-data", CACHE_KEY, none⟩)]).resolved =
      some none :=
  ⟨fun storage key => rfl, rfl⟩
